import Mathlib

/-!
Verification of the storage-manager core of the `zero` repository: a shallow
embedding of the consolidation-array status arithmetic (src/sm/log_carray.h),
the buffer-pool key and swizzled-pointer helpers (src/sm/bf_tree.h), and the
page-handle fix/unfix and page-flag operations (src/sm/fixable_page_h.cpp),
together with theorems settling the specification claims about them.

Machine integers are embedded as `Int` (for the signed 64-bit
`carray_status_t`) and `Nat` with explicit bounds or `% 2 ^ 64`
(for the unsigned `shpid_t`/`uint64_t` values).
-/

namespace Zero

/-! ### Consolidation array (src/sm/log_carray.h)

`carray_status_t` is a signed 64-bit integer: the high 32 bits count the
threads that joined the slot's group, the low 32 bits hold the total log
bytes of the group; negative values are sentinels. -/

abbrev carray_status_t := Int

/-- `ConsolidationArray::Constants::ALL_SLOT_COUNT`. -/
def ALL_SLOT_COUNT : Nat := 256

/-- `ConsolidationArray::Constants::ACTIVE_SLOT_COUNT`. -/
def ACTIVE_SLOT_COUNT : Nat := 5

/-- `ConsolidationArray::Constants::SLOT_AVAILABLE`: slot up for grab. -/
def SLOT_AVAILABLE : carray_status_t := 0

/-- `ConsolidationArray::Constants::SLOT_UNUSED`: slot in the pool but not active. -/
def SLOT_UNUSED : carray_status_t := -1

/-- `ConsolidationArray::Constants::SLOT_PENDING`: closed to new joiners. -/
def SLOT_PENDING : carray_status_t := -2

/-- `ConsolidationArray::Constants::SLOT_FINISHED`: the leader stores this minus
the combined log size; the last thread out observes exactly this value. -/
def SLOT_FINISHED : carray_status_t := -4

/-- The local constant `THREAD_INCREMENT = 1L << 32` of
`ConsolidationArray::join_carray_status`. -/
def THREAD_INCREMENT : carray_status_t := 2 ^ 32

/-- The local constant `THREAD_MASK = 0xFFFF` of
`ConsolidationArray::extract_carray_log_size` (note: sixteen low bits). -/
def THREAD_MASK : carray_status_t := 0xFFFF

/-- `ConsolidationArray::join_carray_status(current_status, log_size)`:
`return current_status + log_size + THREAD_INCREMENT;`. -/
def join_carray_status (current_status : carray_status_t) (log_size : Int) :
    carray_status_t :=
  current_status + log_size + THREAD_INCREMENT

/-- `ConsolidationArray::extract_carray_log_size(current_status)`:
`return current_status & THREAD_MASK;`. -/
def extract_carray_log_size (current_status : carray_status_t) : Int :=
  Int.land current_status THREAD_MASK

/-! ### Buffer-pool key and swizzled pointers (src/sm/bf_tree.h) -/

/-- `SWIZZLED_PID_BIT = 0x80000000`: a swizzled pointer (page ID) has this bit on. -/
def SWIZZLED_PID_BIT : Nat := 0x80000000

/-- `is_swizzled_pointer(shpid)`: `(shpid & SWIZZLED_PID_BIT) != 0`. -/
def is_swizzled_pointer (shpid : Nat) : Bool :=
  shpid &&& SWIZZLED_PID_BIT != 0

/-- `bf_key(vid, shpid)`: `((uint64_t) vid << 32) + shpid`, a `uint64_t`
(hence the explicit wrap at `2 ^ 64`). -/
def bf_key (vid : Nat) (shpid : Nat) : Nat :=
  ((vid <<< 32) + shpid) % 2 ^ 64

/-! ### Page handles (src/sm/fixable_page_h.cpp) -/

/-- `latch_mode_t`: the latch modes a handle can hold. -/
inductive latch_mode_t where
  | LATCH_NL
  | LATCH_Q
  | LATCH_SH
  | LATCH_EX
deriving DecidableEq

/-- The error codes the embedded operations can surface. `eOther` stands for
any error code of a buffer-pool call that the handle code merely propagates. -/
inductive w_error_codes where
  | eLATCHQFAIL
  | ePARENTLATCHQFAIL
  | eBF_DIRECTFIX_SWIZZLED_PTR
  | eOther (n : Nat)
deriving DecidableEq

/-- `w_rc_t`: `RCOK` or an error code. -/
inductive w_rc_t where
  | RCOK
  | RC (e : w_error_codes)
deriving DecidableEq

/-- The fields of the frame control block `bf_tree_cb_t` that the claims
mention: the disk identity of the page held by the frame. -/
structure bf_tree_cb_t where
  _pid_vol : Nat
  _pid_shpid : Nat
deriving DecidableEq

/-- The state of a `fixable_page_h` handle: its latch mode `_mode`, its page
pointer `_pp` (embedded as the control block of the fixed frame, `none` for
`NULL`), and its Q ticket `_Q_ticket`. -/
structure fixable_page_h where
  _mode : latch_mode_t
  _pp : Option bf_tree_cb_t
  _Q_ticket : Nat
deriving DecidableEq

/-- `fixable_page_h::unfix()`. Returns the new handle state together with
whether `smlevel_0::bf->unfix(_pp)` was invoked (i.e. whether a buffer-pool
latch was released). -/
def unfix (self : fixable_page_h) : fixable_page_h × Bool :=
  if self._mode != latch_mode_t.LATCH_NL then
    ({ self with _mode := latch_mode_t.LATCH_NL, _pp := none },
     self._mode != latch_mode_t.LATCH_Q)
  else
    (self, false)

/-- The outcomes of the buffer-pool manager calls that `fix_nonroot` makes,
and the facts about the world that the Q-ticket discipline is meant to
observe. The bodies of `bf_tree_m::fix_with_Q_nonroot` and
`bf_tree_m::fix_nonroot` are not under src/, so their results are inputs of
the embedding: `q_fix_result` is the page (control block) and ticket produced
by `fix_with_Q_nonroot`, `nonroot_fix_result` the page produced by
`fix_nonroot`. `ticket_valid` records whether the obtained Q ticket is still
valid, and `intervening_writer` whether an EX latch acquisition intervened on
the parent between taking its Q ticket and completing the child fix; the
embedded source consults neither field, mirroring the code. -/
structure bf_env where
  q_fix_result : Except w_error_codes (bf_tree_cb_t × Nat)
  nonroot_fix_result : Except w_error_codes bf_tree_cb_t
  ticket_valid : Bool
  intervening_writer : Bool

/-- `fixable_page_h::change_possible_after_fix()`: the source returns `false`
unconditionally ("for now assume no interference"), whatever happened in the
world. -/
def change_possible_after_fix (_env : bf_env) : Bool := false

/-- `fixable_page_h::fix_nonroot(parent, vol, shpid, mode, conditional,
virgin_page)`. `force_Q_fixing` is the static debug global (0 by default);
`parent_mode` is `parent.latch_mode()`. Returns the new handle state and the
returned `w_rc_t`. -/
def fix_nonroot (env : bf_env) (force_Q_fixing : Int) (self : fixable_page_h)
    (parent_mode : latch_mode_t) (_vol : Nat) (shpid : Nat)
    (mode0 : latch_mode_t) (_conditional : Bool) (virgin_page : Bool) :
    fixable_page_h × w_rc_t :=
  let mode := if force_Q_fixing > 1 && mode0 == latch_mode_t.LATCH_SH then
    latch_mode_t.LATCH_Q else mode0
  let s := (unfix self).1
  if mode == latch_mode_t.LATCH_Q || parent_mode == latch_mode_t.LATCH_Q then
    if virgin_page || !is_swizzled_pointer shpid then
      (s, w_rc_t.RC w_error_codes.eLATCHQFAIL)
    else
      match env.q_fix_result with
      | Except.error e => (s, w_rc_t.RC e)
      | Except.ok (pg, tk) =>
        let s1 : fixable_page_h := { s with _pp := some pg, _Q_ticket := tk }
        if false then
          ({ s1 with _pp := none }, w_rc_t.RC w_error_codes.eLATCHQFAIL)
        else if mode != latch_mode_t.LATCH_Q then
          ({ s1 with _pp := none }, w_rc_t.RC w_error_codes.ePARENTLATCHQFAIL)
        else
          let s2 := { s1 with _mode := mode }
          if parent_mode == latch_mode_t.LATCH_Q && change_possible_after_fix env then
            ((unfix s2).1, w_rc_t.RC w_error_codes.ePARENTLATCHQFAIL)
          else
            (s2, w_rc_t.RCOK)
  else
    match env.nonroot_fix_result with
    | Except.error e => (s, w_rc_t.RC e)
    | Except.ok pg =>
      let s2 : fixable_page_h := { s with _pp := some pg, _mode := mode }
      if parent_mode == latch_mode_t.LATCH_Q && change_possible_after_fix env then
        ((unfix s2).1, w_rc_t.RC w_error_codes.ePARENTLATCHQFAIL)
      else
        (s2, w_rc_t.RCOK)

/-- Modelled from the spec: the body of `bf_tree_m::fix_direct` is not under
src/ (only its declaration and documentation in src/sm/bf_tree.h). Per that
documentation and spec section 4.3, it rejects any `shpid` whose swizzle bit
is set with the error `eBF_DIRECTFIX_SWIZZLED_PTR` fixing no page, and
otherwise proceeds; `fix_outcome` stands for the outcome of the remaining fix
work (hash lookup, eviction, I/O), and on success the fixed frame's control
block carries the requested volume id and page id. -/
def bf_fix_direct (fix_outcome : Except w_error_codes Unit) (vol : Nat)
    (shpid : Nat) : Except w_error_codes bf_tree_cb_t :=
  if is_swizzled_pointer shpid then
    Except.error w_error_codes.eBF_DIRECTFIX_SWIZZLED_PTR
  else
    match fix_outcome with
    | Except.error e => Except.error e
    | Except.ok _ => Except.ok { _pid_vol := vol, _pid_shpid := shpid }

/-- `fixable_page_h::fix_direct(vol, shpid, mode, conditional, virgin_page)`:
unfix, reject `LATCH_Q` with `eLATCHQFAIL`, then delegate to
`bf_tree_m::fix_direct` and on success install the page and the mode. -/
def fix_direct (fix_outcome : Except w_error_codes Unit)
    (self : fixable_page_h) (vol : Nat) (shpid : Nat) (mode : latch_mode_t)
    (_conditional : Bool) (_virgin_page : Bool) : fixable_page_h × w_rc_t :=
  let s := (unfix self).1
  if mode == latch_mode_t.LATCH_Q then
    (s, w_rc_t.RC w_error_codes.eLATCHQFAIL)
  else
    match bf_fix_direct fix_outcome vol shpid with
    | Except.error e => (s, w_rc_t.RC e)
    | Except.ok pg => ({ s with _pp := some pg, _mode := mode }, w_rc_t.RCOK)

/-! ### Page-flag operations (src/sm/fixable_page_h.cpp) -/

/-- The state acted on by the to-be-deleted flag operations: the handle's
latch mode, the page's `page_flags` word, the frame's dirty flag, and the
number of log records emitted so far. -/
structure flags_page_h where
  _mode : latch_mode_t
  page_flags : Nat
  dirty : Bool
  log_recs : Nat
deriving DecidableEq

/-- `fixable_page_h::set_dirty()`:
`if (_mode != LATCH_NL) smlevel_0::bf->set_dirty(_pp);`. -/
def set_dirty (s : flags_page_h) : flags_page_h :=
  if s._mode != latch_mode_t.LATCH_NL then { s with dirty := true } else s

/-- Modelled from the spec: the declaration of the `t_to_be_deleted`
page-flag bit is not under src/ (it lives in the generic page header). The
spec and the source treat it as a single bit of `page_flags`, so the
embedding leaves its bit position `k` a parameter. -/
def t_to_be_deleted (k : Nat) : Nat := 2 ^ k

/-- `fixable_page_h::set_to_be_deleted(log_it)` with the flag mask `m`: if
the flag is clear, `if (log_it) W_DO(log_page_set_to_be_deleted(*this));` —
the log append is fallible and `W_DO` returns its error at once, leaving the
flag clear and the page undirtied — then toggle the flag with xor and
`set_dirty()`; if the flag is already set, do nothing. Returns the new state
and the returned `rc_t`. `log_outcome` is the outcome of the
`log_page_set_to_be_deleted` call (a successful call appends one log
record); it is consulted only when `log_it` is true. -/
def set_to_be_deleted (log_outcome : Except w_error_codes Unit) (m : Nat)
    (log_it : Bool) (s : flags_page_h) : flags_page_h × w_rc_t :=
  if s.page_flags &&& m == 0 then
    match (if log_it then log_outcome else Except.ok ()) with
    | Except.error e => (s, w_rc_t.RC e)
    | Except.ok _ =>
      let s1 := { s with
        log_recs := if log_it then s.log_recs + 1 else s.log_recs }
      (set_dirty { s1 with page_flags := s1.page_flags ^^^ m }, w_rc_t.RCOK)
  else (s, w_rc_t.RCOK)

/-- `fixable_page_h::unset_to_be_deleted()` with the flag mask `m`:
if the flag is set, toggle it back with xor; no dirtying. -/
def unset_to_be_deleted (m : Nat) (s : flags_page_h) : flags_page_h :=
  if s.page_flags &&& m != 0 then
    { s with page_flags := s.page_flags ^^^ m }
  else s

/-! ### Theorems -/

/-- C1 (code_bug evaluation): `extract_carray_log_size` masks the status with
`0xFFFF`, the sixteen low bits, although the status documentation and the
claim say the total log bytes occupy the low 32 bits. At the status
`65536 = 0 * 2 ^ 32 + 65536` (thread count 0, total log bytes 65536) it
returns `0`, not `65536`. -/
theorem C1_extract_log_size_at_65536 :
    extract_carray_log_size 65536 = 0 ∧ (65536 : Int) ≠ 0 := by
  constructor
  · decide
  · decide

/-- C5: for a status encoding thread count `c` and byte total `b`, joining a
log size `size` (all nonnegative, byte total not overflowing 32 bits) yields
`current_status + size + 2 ^ 32`, i.e. the encoding of thread count `c + 1`
and byte total `b + size`. -/
theorem C5_join_carray_status (c b size : Int) (_hc : 0 ≤ c) (_hb : 0 ≤ b)
    (_hs : 0 ≤ size) (_hov : b + size < 2 ^ 32) :
    join_carray_status (c * 2 ^ 32 + b) size = (c * 2 ^ 32 + b) + size + 2 ^ 32 ∧
    join_carray_status (c * 2 ^ 32 + b) size = (c + 1) * 2 ^ 32 + (b + size) := by
  unfold join_carray_status THREAD_INCREMENT
  constructor <;> ring

/-- C5 witness: the join theorem at thread count 2, byte total 100, size 28. -/
theorem C5_join_carray_status_witness :
    join_carray_status (2 * 2 ^ 32 + 100) 28 =
      (2 * 2 ^ 32 + 100) + 28 + 2 ^ 32 ∧
    join_carray_status (2 * 2 ^ 32 + 100) 28 = (2 + 1) * 2 ^ 32 + (100 + 28) :=
  C5_join_carray_status 2 100 28 (by norm_num) (by norm_num) (by norm_num)
    (by norm_num)

/-- C6: the slot sentinels are 0, -1, -2 and -4, and a joined status is
strictly positive, hence never equal to any sentinel. -/
theorem C6_join_never_sentinel (status size : Int) (hst : 0 ≤ status)
    (hsz : 0 ≤ size) :
    SLOT_AVAILABLE = 0 ∧ SLOT_UNUSED = -1 ∧ SLOT_PENDING = -2 ∧
    SLOT_FINISHED = -4 ∧
    0 < join_carray_status status size ∧
    join_carray_status status size ≠ SLOT_AVAILABLE ∧
    join_carray_status status size ≠ SLOT_UNUSED ∧
    join_carray_status status size ≠ SLOT_PENDING ∧
    join_carray_status status size ≠ SLOT_FINISHED := by
  unfold join_carray_status THREAD_INCREMENT SLOT_AVAILABLE SLOT_UNUSED
    SLOT_PENDING SLOT_FINISHED
  refine ⟨rfl, rfl, rfl, rfl, ?_, ?_, ?_, ?_, ?_⟩
  · show (0 : Int) < status + size + 2 ^ 32
    omega
  · show status + size + (2 : Int) ^ 32 ≠ 0
    omega
  · show status + size + (2 : Int) ^ 32 ≠ -1
    omega
  · show status + size + (2 : Int) ^ 32 ≠ -2
    omega
  · show status + size + (2 : Int) ^ 32 ≠ -4
    omega

/-- C6 witness: the sentinel theorem at status 0, size 0. -/
theorem C6_join_never_sentinel_witness :
    SLOT_AVAILABLE = 0 ∧ SLOT_UNUSED = -1 ∧ SLOT_PENDING = -2 ∧
    SLOT_FINISHED = -4 ∧
    0 < join_carray_status 0 0 ∧
    join_carray_status 0 0 ≠ SLOT_AVAILABLE ∧
    join_carray_status 0 0 ≠ SLOT_UNUSED ∧
    join_carray_status 0 0 ≠ SLOT_PENDING ∧
    join_carray_status 0 0 ≠ SLOT_FINISHED :=
  C6_join_never_sentinel 0 0 (by norm_num) (by norm_num)

/-- C7: `bf_key` equals `(vid << 32) | shpid` and is injective on pairs of a
32-bit volume id and a 32-bit page id. -/
theorem C7_bf_key (vid shpid vid2 shpid2 : Nat) (hv : vid < 2 ^ 32)
    (hs : shpid < 2 ^ 32) (hv2 : vid2 < 2 ^ 32) (hs2 : shpid2 < 2 ^ 32) :
    bf_key vid shpid = (vid <<< 32) ||| shpid ∧
    (bf_key vid shpid = bf_key vid2 shpid2 → vid = vid2 ∧ shpid = shpid2) := by
  have key_eq : ∀ a b : Nat, a < 2 ^ 32 → b < 2 ^ 32 →
      bf_key a b = a * 2 ^ 32 + b := by
    intro a b ha hb
    unfold bf_key
    rw [Nat.shiftLeft_eq]
    apply Nat.mod_eq_of_lt
    calc a * 2 ^ 32 + b < a * 2 ^ 32 + 2 ^ 32 := by omega
      _ = (a + 1) * 2 ^ 32 := by ring
      _ ≤ 2 ^ 32 * 2 ^ 32 := Nat.mul_le_mul_right _ (by omega)
      _ = 2 ^ 64 := by norm_num
  constructor
  · rw [key_eq vid shpid hv hs, Nat.shiftLeft_eq, Nat.mul_comm vid]
    exact Nat.mul_add_lt_is_or hs vid
  · intro h
    rw [key_eq vid shpid hv hs, key_eq vid2 shpid2 hv2 hs2] at h
    omega

/-- C7 witness: the key theorem at volume id 1, page id 2. -/
theorem C7_bf_key_witness :
    bf_key 1 2 = (1 <<< 32) ||| 2 ∧
    (bf_key 1 2 = bf_key 1 2 → 1 = 1 ∧ 2 = 2) :=
  C7_bf_key 1 2 1 2 (by norm_num) (by norm_num) (by norm_num) (by norm_num)

/-- C8: for a 32-bit pointer value, `is_swizzled_pointer` is true exactly when
bit 31 (the mask `0x80000000 = 2 ^ 31`) is set. -/
theorem C8_is_swizzled_pointer (x : Nat) (_hx : x < 2 ^ 32) :
    SWIZZLED_PID_BIT = 2 ^ 31 ∧
    (is_swizzled_pointer x = true ↔ x.testBit 31 = true) := by
  unfold is_swizzled_pointer SWIZZLED_PID_BIT
  have h : (2147483648 : Nat) = 2 ^ 31 := by norm_num
  rw [h, Nat.and_two_pow]
  refine ⟨rfl, ?_⟩
  cases hb : x.testBit 31 <;> simp [hb]

/-- C8 witness: the swizzle-bit theorem at the pointer value `0x80000000`. -/
theorem C8_is_swizzled_pointer_witness :
    SWIZZLED_PID_BIT = 2 ^ 31 ∧
    (is_swizzled_pointer 2147483648 = true ↔
      Nat.testBit 2147483648 31 = true) :=
  C8_is_swizzled_pointer 2147483648 (by norm_num)

/-- C9: on a handle satisfying the class invariant (an unlatched handle holds
no page pointer), `unfix` leaves mode `LATCH_NL` and a NULL page pointer, a
second `unfix` changes nothing and releases no buffer-pool latch, and an
`unfix` of a Q-mode handle releases no buffer-pool latch. -/
theorem C9_unfix_idempotent (s : fixable_page_h)
    (hinv : s._mode = latch_mode_t.LATCH_NL → s._pp = none) :
    (unfix s).1._mode = latch_mode_t.LATCH_NL ∧
    (unfix s).1._pp = none ∧
    unfix (unfix s).1 = ((unfix s).1, false) ∧
    (s._mode = latch_mode_t.LATCH_Q → (unfix s).2 = false) := by
  rcases s with ⟨m, pp, tk⟩
  cases m
  · simp only at hinv
    simp [unfix, hinv trivial]
  all_goals simp [unfix]

/-- C9 witness: the unfix theorem on a handle fixed in Q mode. -/
theorem C9_unfix_idempotent_witness :
    (unfix ⟨latch_mode_t.LATCH_Q, some ⟨1, 2⟩, 7⟩).1._mode =
      latch_mode_t.LATCH_NL ∧
    (unfix ⟨latch_mode_t.LATCH_Q, some ⟨1, 2⟩, 7⟩).1._pp = none ∧
    unfix (unfix ⟨latch_mode_t.LATCH_Q, some ⟨1, 2⟩, 7⟩).1 =
      ((unfix ⟨latch_mode_t.LATCH_Q, some ⟨1, 2⟩, 7⟩).1, false) ∧
    ((⟨latch_mode_t.LATCH_Q, some ⟨1, 2⟩, 7⟩ : fixable_page_h)._mode =
        latch_mode_t.LATCH_Q →
      (unfix ⟨latch_mode_t.LATCH_Q, some ⟨1, 2⟩, 7⟩).2 = false) :=
  C9_unfix_idempotent ⟨latch_mode_t.LATCH_Q, some ⟨1, 2⟩, 7⟩ (by simp)

/-- C3: `fix_direct` on a handle satisfying the class invariant, with the
documented mode precondition (SH or EX, not Q): a swizzled `shpid` is
rejected with `eBF_DIRECTFIX_SWIZZLED_PTR` and no page is fixed; a
non-swizzled `shpid` proceeds, and on success the fixed page's control block
carries exactly the requested volume id and page id. -/
theorem C3_fix_direct (oc : Except w_error_codes Unit) (s : fixable_page_h)
    (vol shpid : Nat) (mode : latch_mode_t) (co vi : Bool)
    (hm : mode ≠ latch_mode_t.LATCH_Q)
    (hinv : s._mode = latch_mode_t.LATCH_NL → s._pp = none) :
    (is_swizzled_pointer shpid = true →
      (fix_direct oc s vol shpid mode co vi).2 =
        w_rc_t.RC w_error_codes.eBF_DIRECTFIX_SWIZZLED_PTR ∧
      (fix_direct oc s vol shpid mode co vi).1._mode = latch_mode_t.LATCH_NL ∧
      (fix_direct oc s vol shpid mode co vi).1._pp = none) ∧
    (is_swizzled_pointer shpid = false →
      (fix_direct oc s vol shpid mode co vi).2 = w_rc_t.RCOK →
      (fix_direct oc s vol shpid mode co vi).1._pp =
        some { _pid_vol := vol, _pid_shpid := shpid } ∧
      (fix_direct oc s vol shpid mode co vi).1._mode = mode) := by
  have hmode : (mode == latch_mode_t.LATCH_Q) = false := by
    simpa using hm
  have hun : (unfix s).1._pp = none := by
    rcases s with ⟨m, pp, tk⟩
    cases m
    · simp only at hinv
      simp [unfix, hinv trivial]
    all_goals simp [unfix]
  have hunm : (unfix s).1._mode = latch_mode_t.LATCH_NL := by
    rcases s with ⟨m, pp, tk⟩
    cases m <;> simp [unfix]
  constructor
  · intro hsw
    simp [fix_direct, bf_fix_direct, hmode, hsw, hun, hunm]
  · intro hsw
    cases oc <;> simp [fix_direct, bf_fix_direct, hmode, hsw]

/-- C3 witness: `fix_direct` in SH mode of the non-swizzled page id 7 of
volume 3, with the remaining fix work succeeding. -/
theorem C3_fix_direct_witness :
    (is_swizzled_pointer 7 = true →
      (fix_direct (Except.ok ()) ⟨latch_mode_t.LATCH_NL, none, 0⟩ 3 7
          latch_mode_t.LATCH_SH false false).2 =
        w_rc_t.RC w_error_codes.eBF_DIRECTFIX_SWIZZLED_PTR ∧
      (fix_direct (Except.ok ()) ⟨latch_mode_t.LATCH_NL, none, 0⟩ 3 7
          latch_mode_t.LATCH_SH false false).1._mode = latch_mode_t.LATCH_NL ∧
      (fix_direct (Except.ok ()) ⟨latch_mode_t.LATCH_NL, none, 0⟩ 3 7
          latch_mode_t.LATCH_SH false false).1._pp = none) ∧
    (is_swizzled_pointer 7 = false →
      (fix_direct (Except.ok ()) ⟨latch_mode_t.LATCH_NL, none, 0⟩ 3 7
          latch_mode_t.LATCH_SH false false).2 = w_rc_t.RCOK →
      (fix_direct (Except.ok ()) ⟨latch_mode_t.LATCH_NL, none, 0⟩ 3 7
          latch_mode_t.LATCH_SH false false).1._pp =
        some { _pid_vol := 3, _pid_shpid := 7 } ∧
      (fix_direct (Except.ok ()) ⟨latch_mode_t.LATCH_NL, none, 0⟩ 3 7
          latch_mode_t.LATCH_SH false false).1._mode =
        latch_mode_t.LATCH_SH) :=
  C3_fix_direct (Except.ok ()) ⟨latch_mode_t.LATCH_NL, none, 0⟩ 3 7
    latch_mode_t.LATCH_SH false false (by simp) (by simp)

/-- C2 (code_bug evaluation): a Q-mode `fix_nonroot` of a swizzled,
non-virgin pointer under a Q-latched parent, with an intervening writer on
the parent, returns `RCOK` with the page left fixed in Q mode:
`change_possible_after_fix` returns false unconditionally, so the intervening
writer is not detected and no `ePARENTLATCHQFAIL` restart is forced. -/
theorem C2_intervening_writer_not_detected :
    fix_nonroot
        (bf_env.mk (Except.ok (bf_tree_cb_t.mk 1 5, 42))
          (Except.ok (bf_tree_cb_t.mk 1 5)) true true) 0
        (fixable_page_h.mk latch_mode_t.LATCH_NL none 0)
        latch_mode_t.LATCH_Q 1 2147483653 latch_mode_t.LATCH_Q false false =
      (fixable_page_h.mk latch_mode_t.LATCH_Q (some (bf_tree_cb_t.mk 1 5)) 42,
        w_rc_t.RCOK) ∧
    (bf_env.mk (Except.ok (bf_tree_cb_t.mk 1 5, 42))
        (Except.ok (bf_tree_cb_t.mk 1 5)) true true).intervening_writer =
      true ∧
    change_possible_after_fix
        (bf_env.mk (Except.ok (bf_tree_cb_t.mk 1 5, 42))
          (Except.ok (bf_tree_cb_t.mk 1 5)) true true) = false := by
  refine ⟨?_, rfl, rfl⟩
  rfl

/-- C4 (code_bug evaluation): a Q-mode `fix_nonroot` of a swizzled,
non-virgin pointer whose obtained Q ticket is invalid returns `RCOK`, not
`eLATCHQFAIL`: the ticket-validity test in the source is a dead
`if (false)` branch, so an invalid ticket never produces the error the
claim requires. -/
theorem C4_invalid_ticket_not_rejected :
    (fix_nonroot
        (bf_env.mk (Except.ok (bf_tree_cb_t.mk 1 5, 42))
          (Except.ok (bf_tree_cb_t.mk 1 5)) false false) 0
        (fixable_page_h.mk latch_mode_t.LATCH_NL none 0)
        latch_mode_t.LATCH_SH 1 2147483653 latch_mode_t.LATCH_Q false
        false).2 = w_rc_t.RCOK ∧
    (bf_env.mk (Except.ok (bf_tree_cb_t.mk 1 5, 42))
        (Except.ok (bf_tree_cb_t.mk 1 5)) false false).ticket_valid =
      false := by
  refine ⟨?_, rfl⟩
  rfl

/-- C10 (counterexample): when the to-be-deleted flag is already set,
`set_to_be_deleted` does nothing and `unset_to_be_deleted` then clears the
flag, so `unset_to_be_deleted` after `set_to_be_deleted` does not restore the
original flag value: starting from `page_flags = 1` (flag bit 0 set) the
composition yields `page_flags = 0` (with `log_it = false`, so the log call
plays no part). -/
theorem C10_set_unset_not_roundtrip :
    (unset_to_be_deleted (t_to_be_deleted 0)
        (set_to_be_deleted (Except.ok ()) (t_to_be_deleted 0) false
          (flags_page_h.mk latch_mode_t.LATCH_SH 1 true 0)).1).page_flags =
      0 ∧
    (flags_page_h.mk latch_mode_t.LATCH_SH 1 true 0).page_flags = 1 ∧
    (0 : Nat) ≠ 1 := by
  refine ⟨rfl, rfl, by decide⟩

/-- C10 (amended): on a latched page, `set_to_be_deleted` sets the
to-be-deleted flag, marks the page dirty and appends the log record exactly
when requested, only when the flag was previously clear and the requested
log append did not fail; when the log append fails the error is returned
with the flag still clear, the page undirtied and nothing logged; when the
flag is already set it does nothing (no log record, no dirtying), so it is
idempotent. `unset_to_be_deleted` clears the flag only when it is set, so
`unset_to_be_deleted` after `set_to_be_deleted` restores the original
`page_flags` provided the flag was initially clear; and neither operation
changes any `page_flags` bit other than the `t_to_be_deleted` bit. -/
theorem C10_to_be_deleted (k j : Nat) (log_it : Bool)
    (oc : Except w_error_codes Unit) (e : w_error_codes) (s : flags_page_h)
    (m : Nat) (hm : m = t_to_be_deleted k)
    (hl : s._mode ≠ latch_mode_t.LATCH_NL) (hj : j ≠ k) :
    (s.page_flags &&& m = 0 → (log_it = true → oc = Except.ok ()) →
      (set_to_be_deleted oc m log_it s).1.page_flags &&& m = m ∧
      (set_to_be_deleted oc m log_it s).1.dirty = true ∧
      (set_to_be_deleted oc m log_it s).1.log_recs =
        (if log_it then s.log_recs + 1 else s.log_recs) ∧
      (set_to_be_deleted oc m log_it s).2 = w_rc_t.RCOK) ∧
    (s.page_flags &&& m = 0 → log_it = true → oc = Except.error e →
      set_to_be_deleted oc m log_it s = (s, w_rc_t.RC e)) ∧
    (s.page_flags &&& m ≠ 0 →
      set_to_be_deleted oc m log_it s = (s, w_rc_t.RCOK)) ∧
    (set_to_be_deleted oc m log_it (set_to_be_deleted oc m log_it s).1).1 =
      (set_to_be_deleted oc m log_it s).1 ∧
    (s.page_flags &&& m = 0 →
      (unset_to_be_deleted m (set_to_be_deleted oc m log_it s).1).page_flags =
        s.page_flags) ∧
    (s.page_flags &&& m = 0 → unset_to_be_deleted m s = s) ∧
    (set_to_be_deleted oc m log_it s).1.page_flags.testBit j =
      s.page_flags.testBit j ∧
    (unset_to_be_deleted m s).page_flags.testBit j = s.page_flags.testBit j := by
  subst hm
  unfold t_to_be_deleted
  have hmode : (s._mode != latch_mode_t.LATCH_NL) = true := by
    simpa using hl
  have hxor_and : ∀ x : Nat, x &&& 2 ^ k = 0 →
      (x ^^^ 2 ^ k) &&& 2 ^ k = 2 ^ k := by
    intro x hx
    rw [Nat.and_xor_distrib_right, hx, Nat.and_self, Nat.zero_xor]
  have htb : ∀ x : Nat, (x ^^^ 2 ^ k).testBit j = x.testBit j := by
    intro x
    rw [Nat.testBit_xor, Nat.testBit_two_pow_of_ne (Ne.symm hj), Bool.xor_false]
  have hset_noop : ∀ t : flags_page_h, t.page_flags &&& 2 ^ k ≠ 0 →
      set_to_be_deleted oc (2 ^ k) log_it t = (t, w_rc_t.RCOK) := by
    intro t ht
    rw [set_to_be_deleted, if_neg (by simpa using ht)]
  have hunset_noop : ∀ t : flags_page_h, t.page_flags &&& 2 ^ k = 0 →
      unset_to_be_deleted (2 ^ k) t = t := by
    intro t ht
    rw [unset_to_be_deleted, if_neg (by simpa using ht)]
  have hunset_tog : ∀ t : flags_page_h, t.page_flags &&& 2 ^ k ≠ 0 →
      (unset_to_be_deleted (2 ^ k) t).page_flags = t.page_flags ^^^ 2 ^ k := by
    intro t ht
    rw [unset_to_be_deleted, if_pos (by simpa using ht)]
  by_cases h0 : s.page_flags &&& 2 ^ k = 0
  · have hc : (s.page_flags &&& 2 ^ k == 0) = true := by simpa using h0
    rcases hoc : (if log_it then oc else Except.ok ()) with e1 | u
    · -- the (requested) log append failed: early return, state unchanged
      have hlog : log_it = true := by
        cases log_it
        · simp at hoc
        · rfl
      have hstate : set_to_be_deleted oc (2 ^ k) log_it s =
          (s, w_rc_t.RC e1) := by
        rw [set_to_be_deleted, if_pos hc, hoc]
      refine ⟨fun _ hok => ?_, fun _ _ hoe => ?_, fun hne => absurd h0 hne,
        ?_, fun _ => ?_, fun _ => hunset_noop s h0, ?_, ?_⟩
      · rw [hok hlog, hlog] at hoc
        simp at hoc
      · rw [hstate]
        rw [hlog, hoe] at hoc
        simp at hoc
        rw [hoc]
      · rw [hstate]
        rw [hstate]
      · rw [hstate]
        exact congrArg flags_page_h.page_flags (hunset_noop s h0)
      · rw [hstate]
      · rw [hunset_noop s h0]
    · -- the log append (if requested) succeeded: toggle, dirty, log
      have hstate : set_to_be_deleted oc (2 ^ k) log_it s =
          (set_dirty { s with
              page_flags := s.page_flags ^^^ 2 ^ k,
              log_recs := if log_it then s.log_recs + 1 else s.log_recs },
            w_rc_t.RCOK) := by
        rw [set_to_be_deleted, if_pos hc, hoc]
      have hflags : (set_to_be_deleted oc (2 ^ k) log_it s).1.page_flags =
          s.page_flags ^^^ 2 ^ k := by
        rw [hstate]
        simp [set_dirty, hmode]
      have hfs : (set_to_be_deleted oc (2 ^ k) log_it s).1.page_flags &&&
          2 ^ k ≠ 0 := by
        rw [hflags, hxor_and _ h0]
        exact (Nat.pos_pow_of_pos k (by norm_num)).ne'
      refine ⟨fun _ _ => ?_, fun _ hlog hoe => ?_, fun hne => absurd h0 hne,
        ?_, fun _ => ?_, fun _ => hunset_noop s h0, ?_, ?_⟩
      · refine ⟨by rw [hflags]; exact hxor_and _ h0, ?_, ?_, by rw [hstate]⟩
        · rw [hstate]
          simp [set_dirty, hmode]
        · rw [hstate]
          simp [set_dirty, hmode]
      · rw [hlog, hoe] at hoc
        simp at hoc
      · rw [hset_noop _ hfs]
      · rw [hunset_tog _ hfs, hflags, Nat.xor_cancel_right]
      · rw [hflags, htb]
      · rw [hunset_noop s h0]
  · have hid : set_to_be_deleted oc (2 ^ k) log_it s = (s, w_rc_t.RCOK) :=
      hset_noop s h0
    refine ⟨fun h => absurd h h0, fun h => absurd h h0, fun _ => hid,
      ?_, fun h => absurd h h0, fun h => absurd h h0, by rw [hid], ?_⟩
    · rw [hid]
      exact congrArg Prod.fst hid
    · rw [hunset_tog s h0, htb]

/-- C10 witness: the amended theorem at flag bit 1, observed bit 0, on an
EX-latched page with flags 4, with the log append requested and
succeeding. -/
theorem C10_to_be_deleted_witness :
    ((flags_page_h.mk latch_mode_t.LATCH_EX 4 false 0).page_flags &&& 2 = 0 →
      (true = true → Except.ok () = (Except.ok () : Except w_error_codes Unit)) →
      (set_to_be_deleted (Except.ok ()) 2 true
          (flags_page_h.mk latch_mode_t.LATCH_EX 4 false 0)).1.page_flags &&&
        2 = 2 ∧
      (set_to_be_deleted (Except.ok ()) 2 true
          (flags_page_h.mk latch_mode_t.LATCH_EX 4 false 0)).1.dirty = true ∧
      (set_to_be_deleted (Except.ok ()) 2 true
          (flags_page_h.mk latch_mode_t.LATCH_EX 4 false 0)).1.log_recs =
        (if true then
          (flags_page_h.mk latch_mode_t.LATCH_EX 4 false 0).log_recs + 1
        else (flags_page_h.mk latch_mode_t.LATCH_EX 4 false 0).log_recs) ∧
      (set_to_be_deleted (Except.ok ()) 2 true
          (flags_page_h.mk latch_mode_t.LATCH_EX 4 false 0)).2 =
        w_rc_t.RCOK) ∧
    ((flags_page_h.mk latch_mode_t.LATCH_EX 4 false 0).page_flags &&& 2 = 0 →
      true = true →
      (Except.ok () : Except w_error_codes Unit) =
        Except.error (w_error_codes.eOther 0) →
      set_to_be_deleted (Except.ok ()) 2 true
          (flags_page_h.mk latch_mode_t.LATCH_EX 4 false 0) =
        (flags_page_h.mk latch_mode_t.LATCH_EX 4 false 0,
          w_rc_t.RC (w_error_codes.eOther 0))) ∧
    ((flags_page_h.mk latch_mode_t.LATCH_EX 4 false 0).page_flags &&& 2 ≠ 0 →
      set_to_be_deleted (Except.ok ()) 2 true
          (flags_page_h.mk latch_mode_t.LATCH_EX 4 false 0) =
        (flags_page_h.mk latch_mode_t.LATCH_EX 4 false 0, w_rc_t.RCOK)) ∧
    (set_to_be_deleted (Except.ok ()) 2 true
        (set_to_be_deleted (Except.ok ()) 2 true
          (flags_page_h.mk latch_mode_t.LATCH_EX 4 false 0)).1).1 =
      (set_to_be_deleted (Except.ok ()) 2 true
        (flags_page_h.mk latch_mode_t.LATCH_EX 4 false 0)).1 ∧
    ((flags_page_h.mk latch_mode_t.LATCH_EX 4 false 0).page_flags &&& 2 = 0 →
      (unset_to_be_deleted 2
          (set_to_be_deleted (Except.ok ()) 2 true
            (flags_page_h.mk latch_mode_t.LATCH_EX 4 false 0)).1).page_flags =
        (flags_page_h.mk latch_mode_t.LATCH_EX 4 false 0).page_flags) ∧
    ((flags_page_h.mk latch_mode_t.LATCH_EX 4 false 0).page_flags &&& 2 = 0 →
      unset_to_be_deleted 2 (flags_page_h.mk latch_mode_t.LATCH_EX 4 false 0) =
        flags_page_h.mk latch_mode_t.LATCH_EX 4 false 0) ∧
    (set_to_be_deleted (Except.ok ()) 2 true
        (flags_page_h.mk latch_mode_t.LATCH_EX 4 false 0)).1.page_flags.testBit
        0 =
      (flags_page_h.mk latch_mode_t.LATCH_EX 4 false 0).page_flags.testBit 0 ∧
    (unset_to_be_deleted 2
        (flags_page_h.mk latch_mode_t.LATCH_EX 4 false 0)).page_flags.testBit
        0 =
      (flags_page_h.mk latch_mode_t.LATCH_EX 4 false 0).page_flags.testBit 0 :=
  C10_to_be_deleted 1 0 true (Except.ok ()) (w_error_codes.eOther 0)
    (flags_page_h.mk latch_mode_t.LATCH_EX 4 false 0) 2
    (by norm_num [t_to_be_deleted]) (by simp) (by norm_num)

end Zero
